import Mathlib

/-!
Shallow embedding of `sys/arch/amd64/amd64/pmap.c` (Hyra kernel, amd64
physical-map layer): page-table entry flags, the four-level walker,
mapping operations, cache-policy control, address-space management and
the cross-CPU TLB-shootdown path.

Machine words are modelled as `Nat` with explicit 64-bit masking where
the C code relies on fixed-width truncation.  Physical memory holding
page tables is a function from (physical frame base, entry index) to the
64-bit entry value; `PHYS_TO_VIRT` is a fixed-offset alias in the kernel
and is modelled as the identity (tables are addressed by their physical
base).  Fallible operations return `Option`; `none` models the machine
halting on a failed kernel assertion (`__assert`).
-/

namespace Hyra

/-- PTE flag constants from pmap.c (Intel SDM Vol 3A, Table 4-19). -/
def PTE_ADDR_MASK : Nat := 0x000FFFFFFFFFF000

def PTE_P : Nat := 0x1

def PTE_RW : Nat := 0x2

def PTE_US : Nat := 0x4

def PTE_PWT : Nat := 0x8

def PTE_PCD : Nat := 0x10

def PTE_NX : Nat := 0x8000000000000000

/-- All ones in 64 bits: the width of a C `uint64_t`/`uintptr_t`. -/
def MASK64 : Nat := 0xFFFFFFFFFFFFFFFF

/-- Modelled from the spec: the numeric encoding of the `vm_prot_t`
capability bits (`PROT_WRITE`, `PROT_EXEC`, `PROT_USER` from the
`vm/pmap.h` header, which is not among the provided sources) is unknown;
a protection value is modelled as its capability set, which is all that
`pmap_prot_to_pte` inspects via `__TEST`. -/
structure VmProt where
  write : Bool
  exec : Bool
  user : Bool

/-- Modelled from the spec: the numeric value of `VM_CACHE_UC` in the
missing `vm/vm.h` header is unknown; only its distinctness from
`VM_CACHE_WT` matters to the code. -/
def VM_CACHE_UC : Nat := 0

/-- Modelled from the spec: the numeric value of `VM_CACHE_WT` in the
missing `vm/vm.h` header is unknown; only its distinctness from
`VM_CACHE_UC` matters to the code. -/
def VM_CACHE_WT : Nat := 1

/-- Modelled from the spec: the interrupt vector number reserved for the
TLB shootdown (from the missing `machine/sysvec.h`); its value is
immaterial, it only tags the IPI event. -/
def SYSVEC_TLB : Nat := 0x21

/-- Modelled from the spec: the "all other cores" IPI shorthand encoding
(from the missing `machine/lapic.h`); its value is immaterial. -/
def IPI_SHORTHAND_OTHERS : Nat := 3

/-- Per-interrupt statistics record (`struct intr_info`): the fields the
shootdown ISR touches. -/
structure IntrInfo where
  count : Nat
  affinity : Nat
deriving DecidableEq

/-- The fields of `struct cpu_info` that pmap.c reads or writes. -/
structure CpuInfo where
  id : Nat
  tlb_flush_ptr : Nat
  tlb_shootdown : Option IntrInfo
deriving DecidableEq

def cpu_default : CpuInfo := { id := 0, tlb_flush_ptr := 0, tlb_shootdown := none }

/-- Observable hardware side effects: local TLB flushes (`tlb_flush`),
inter-processor interrupts (`lapic_send_ipi`) and end-of-interrupt
signals (`lapic_send_eoi`). -/
inductive Event where
  | tlbFlush (cpu : Nat) (va : Nat)
  | ipi (dest : Nat) (shorthand : Nat) (vector : Nat)
  | eoi (cpu : Nat)
deriving DecidableEq

/-- The machine state pmap.c operates on: the CPU registry, the id of
the CPU running the code (`this_cpu`), the CR3 register, physical
memory holding page tables (frame base -> entry index -> entry value),
the frame allocator's free list (`vm_alloc_pageframe` hands out the
head; an empty list models frame exhaustion, returning 0), and the log
of hardware events. -/
structure Machine where
  cpus : List CpuInfo
  cur_id : Nat
  cr3 : Nat
  mem : Nat → Nat → Nat
  free : List Nat
  events : List Event

/-- Model of `struct vas`: the fields pmap.c uses. -/
structure Vas where
  cr3_flags : Nat
  top_level : Nat
  use_l5_paging : Bool
  lock : Nat
deriving DecidableEq

/-- Write one page-table entry: `base[idx] = val`. -/
def mem_write (m : Machine) (base idx val : Nat) : Machine :=
  { m with mem := fun b i => if b = base then (if i = idx then val else m.mem b i) else m.mem b i }

/-- Model of `memset(PHYS_TO_VIRT(base), 0, vm_get_page_size())`: zero a frame. -/
def zero_frame (m : Machine) (base : Nat) : Machine :=
  { m with mem := fun b i => if b = base then 0 else m.mem b i }

/-- Model of `vm_alloc_pageframe(1)`: pop the next free frame, or return 0 on
exhaustion (the allocator contract says 0 is never a valid success). -/
def vm_alloc_pageframe (m : Machine) : Nat × Machine :=
  match m.free with
  | [] => (0, m)
  | f :: rest => (f, { m with free := rest })

/-- Embedding of `pmap_prot_to_pte` (pmap.c lines 102-115): convert pmap prot flags
to PTE flags. -/
def pmap_prot_to_pte (prot : VmProt) : Nat :=
  let f0 := PTE_P ||| PTE_NX
  let f1 := if prot.write then f0 ||| PTE_RW else f0
  let f2 := if prot.exec then f1 &&& (MASK64 ^^^ PTE_NX) else f1
  let f3 := if prot.user then f2 ||| PTE_US else f2
  f3

/-- Embedding of `pmap_get_level_index` (pmap.c lines 123-141): index for a specific
pagemap level. -/
def pmap_get_level_index (level : Nat) (va : Nat) : Nat :=
  match level with
  | 4 => (va >>> 39) &&& 0x1FF
  | 3 => (va >>> 30) &&& 0x1FF
  | 2 => (va >>> 21) &&& 0x1FF
  | 1 => (va >>> 12) &&& 0x1FF
  | _ => 0

/-- Result of `pmap_extract`: a table location, the C `NULL` return, or
the machine halting on the `__assert(level_alloc != 0)` failure. -/
inductive ExtractResult where
  | ok (tbl : Nat) (m : Machine)
  | nullPtr (m : Machine)
  | halt

/-- Embedding of `pmap_extract` (pmap.c lines 143-173): step one level down the radix
tree, lazily allocating a zeroed frame when allowed. -/
def pmap_extract (level va tbl_base : Nat) (allocate : Bool) (m : Machine) : ExtractResult :=
  let idx := pmap_get_level_index level va
  let entry := m.mem tbl_base idx
  if entry &&& PTE_P ≠ 0 then
    .ok (entry &&& PTE_ADDR_MASK) m
  else if !allocate then
    .nullPtr m
  else
    let res := vm_alloc_pageframe m
    let level_alloc := res.1
    let m1 := res.2
    if level_alloc = 0 then .halt
    else
      let m2 := zero_frame m1 level_alloc
      let m3 := mem_write m2 tbl_base idx (level_alloc ||| (PTE_P ||| PTE_RW ||| PTE_US))
      .ok level_alloc m3

/-- Result of `pmap_get_tbl`: the leaf table and state on success, the
nonzero status on failure, or a halted machine. -/
inductive TblResult where
  | ok (tbl : Nat) (m : Machine)
  | err (status : Int) (m : Machine)
  | halt

/-- Embedding of `pmap_get_tbl` (pmap.c lines 184-213): walk levels 4, 3, 2 to reach
the leaf (level-1) table. -/
def pmap_get_tbl (vas : Vas) (va : Nat) (alloc : Bool) (m : Machine) : TblResult :=
  match pmap_extract 4 va vas.top_level alloc m with
  | .halt => .halt
  | .nullPtr m1 => .err 1 m1
  | .ok pdpt m1 =>
    match pmap_extract 3 va pdpt alloc m1 with
    | .halt => .halt
    | .nullPtr m2 => .err 1 m2
    | .ok pd m2 =>
      match pmap_extract 2 va pd alloc m2 with
      | .halt => .halt
      | .nullPtr m3 => .err 1 m3
      | .ok tbl m3 => .ok tbl m3

/-- Model of `cpu_count()`: number of registered CPUs. -/
def cpu_count (m : Machine) : Nat := m.cpus.length

/-- Embedding of `tlb_shootdown` (pmap.c lines 82-97): store the address to flush in
every other CPU's pending-flush slot, then send one IPI to all other
cores with the shootdown vector. -/
def tlb_shootdown (flush_va : Nat) (m : Machine) : Machine :=
  { m with
    cpus := m.cpus.map (fun ci => if ci.id = m.cur_id then ci else { ci with tlb_flush_ptr := flush_va }),
    events := m.events ++ [Event.ipi 0 IPI_SHORTHAND_OTHERS SYSVEC_TLB] }

/-- Embedding of `pmap_flush` (pmap.c lines 220-234): broadcast a shootdown when more
than one CPU is listed, then flush the local TLB entry. -/
def pmap_flush (va : Nat) (m : Machine) : Machine :=
  let m1 := if cpu_count m > 1 then tlb_shootdown va m else m
  { m1 with events := m1.events ++ [Event.tlbFlush m1.cur_id va] }

/-- Embedding of `tlb_shootdown_isr` (pmap.c lines 60-80), run by the CPU at position
`i` of the registry: lazily attach the interrupt-statistics record,
bump its counter, flush the address in the pending slot, clear the
slot, signal EOI. -/
def tlb_shootdown_isr (i : Nat) (m : Machine) : Machine :=
  let ci := m.cpus.getD i cpu_default
  let ii := match ci.tlb_shootdown with
            | none => { count := 0, affinity := ci.id : IntrInfo }
            | some x => x
  let ii2 := { ii with count := ii.count + 1 }
  let ci2 := { ci with tlb_shootdown := some ii2, tlb_flush_ptr := 0 }
  { m with
    cpus := m.cpus.set i ci2,
    events := m.events ++ [Event.tlbFlush ci.id ci.tlb_flush_ptr, Event.eoi ci.id] }

/-- Embedding of `pmap_modify_tbl` (pmap.c lines 241-255): allocating walk, write
`val` into the leaf slot, flush.  `none` models the halt on frame
exhaustion inside the walk. -/
def pmap_modify_tbl (vas : Vas) (va val : Nat) (m : Machine) : Option (Int × Machine) :=
  match pmap_get_tbl vas va true m with
  | .halt => none
  | .err status m1 => some (status, m1)
  | .ok tbl m1 =>
    let m2 := mem_write m1 tbl (pmap_get_level_index 1 va) val
    some (0, pmap_flush va m2)

/-- Embedding of `pmap_set_cache` (pmap.c lines 257-287): non-allocating walk, then
edit the PCD/PWT bits of the leaf entry according to the policy. -/
def pmap_set_cache (vas : Vas) (va : Nat) (cache_type : Nat) (m : Machine) : Option (Int × Machine) :=
  match pmap_get_tbl vas va false m with
  | .halt => none
  | .err status m1 => some (status, m1)
  | .ok tbl m1 =>
    let idx := pmap_get_level_index 1 va
    if cache_type = VM_CACHE_UC then
      let m2 := mem_write m1 tbl idx (m1.mem tbl idx ||| PTE_PCD)
      let m3 := mem_write m2 tbl idx (m2.mem tbl idx &&& (MASK64 ^^^ PTE_PWT))
      some (0, pmap_flush va m3)
    else if cache_type = VM_CACHE_WT then
      let m2 := mem_write m1 tbl idx (m1.mem tbl idx &&& (MASK64 ^^^ PTE_PCD))
      let m3 := mem_write m2 tbl idx (m2.mem tbl idx ||| PTE_PWT)
      some (0, pmap_flush va m3)
    else
      some (1, m1)

/-- Embedding of `pmap_map` (pmap.c lines 289-296).  The C code stores the 64-bit
result of `pmap_prot_to_pte` in a `uint32_t` local, so the flags are
truncated modulo 2^32 before being merged with the physical address. -/
def pmap_map (vas : Vas) (va pa : Nat) (prot : VmProt) (m : Machine) : Option (Int × Machine) :=
  let flags := pmap_prot_to_pte prot &&& 0xFFFFFFFF
  pmap_modify_tbl vas va (pa ||| flags) m

/-- Embedding of `pmap_unmap` (pmap.c lines 298-302): write zero into the leaf slot. -/
def pmap_unmap (vas : Vas) (va : Nat) (m : Machine) : Option (Int × Machine) :=
  pmap_modify_tbl vas va 0 m

/-- Embedding of `pmap_read_vas` (pmap.c lines 365-380): decode CR3 into control
flags and root address. -/
def pmap_read_vas (m : Machine) : Vas :=
  { cr3_flags := m.cr3 &&& (MASK64 ^^^ PTE_ADDR_MASK),
    top_level := m.cr3 &&& PTE_ADDR_MASK,
    use_l5_paging := false,
    lock := 0 }

/-- Embedding of `pmap_switch_vas` (pmap.c lines 341-350): load flags | root into
CR3. -/
def pmap_switch_vas (vas : Vas) (m : Machine) : Machine :=
  { m with cr3 := vas.cr3_flags ||| vas.top_level }

/-- Embedding of `pmap_create_vas` (pmap.c lines 304-339): allocate a fresh root
frame, zero its lower 256 entries, copy the upper 256 entries from the
current (CR3) root; on allocation failure return -1 and no descriptor.
The result triple is (return status, `*res` if written, machine). -/
def pmap_create_vas (m : Machine) : Int × Option Vas × Machine :=
  let current_vas := pmap_read_vas m
  match vm_alloc_pageframe m with
  | (top, m1) =>
    if top = 0 then (-1, none, m1)
    else
      let src := current_vas.top_level
      let newmem : Nat → Nat → Nat := fun b i =>
        if b = top then
          (if i < 512 then (if i < 256 then 0 else m1.mem src i) else m1.mem b i)
        else m1.mem b i
      let m2 := { m1 with mem := newmem }
      (0, some { cr3_flags := 0, top_level := top, use_l5_paging := false, lock := 0 }, m2)

/-- Non-allocating lookup of the leaf mapping for `va`: walk down with
`pmap_get_tbl` (alloc = false), then read the leaf slot with
`pmap_extract` at level 1; `none` is the mapping-not-found outcome. -/
def leaf_lookup (vas : Vas) (va : Nat) (m : Machine) : Option Nat :=
  match pmap_get_tbl vas va false m with
  | .ok tbl m1 =>
    match pmap_extract 1 va tbl false m1 with
    | .ok pa _ => some pa
    | _ => none
  | _ => none

/-- Test fixture: one CPU with id 0. -/
def cpu0 : CpuInfo := { id := 0, tlb_flush_ptr := 0, tlb_shootdown := none }

/-- Test fixture: the address-space descriptor whose root is the frame
at 0x1000. -/
def vas0 : Vas := { cr3_flags := 0, top_level := 0x1000, use_l5_paging := false, lock := 0 }

/-- Test fixture: a single-CPU machine with an empty radix tree rooted
at 0x1000 and three free frames for the intermediate levels. -/
def M0 : Machine :=
  { cpus := [cpu0],
    cur_id := 0,
    cr3 := 0x1000,
    mem := fun _ _ => 0,
    free := [0x2000, 0x3000, 0x4000],
    events := [] }

/-- Test fixture: the two-CPU variant of `M0` (ids 0 and 1, CPU 0
running). -/
def M2c : Machine :=
  { cpus := [cpu0, { id := 1, tlb_flush_ptr := 0, tlb_shootdown := none }],
    cur_id := 0,
    cr3 := 0x1000,
    mem := fun _ _ => 0,
    free := [0x2000, 0x3000, 0x4000],
    events := [] }

/-- Test fixture: a machine whose radix tree for `va` is fully present
(root 0x1000 -> 0x2000 -> 0x3000 -> leaf table 0x4000) with the leaf
entry for `va` holding `e`; the free list is empty. -/
def cacheM (va e : Nat) : Machine :=
  { cpus := [cpu0],
    cur_id := 0,
    cr3 := 0x1000,
    mem := fun b i =>
      if b = 0x1000 then (if i = pmap_get_level_index 4 va then 0x2007 else 0)
      else if b = 0x2000 then (if i = pmap_get_level_index 3 va then 0x3007 else 0)
      else if b = 0x3000 then (if i = pmap_get_level_index 2 va then 0x4007 else 0)
      else if b = 0x4000 then (if i = pmap_get_level_index 1 va then e else 0)
      else 0,
    free := [],
    events := [] }

end Hyra

namespace Hyra

/-- Masking with 0x1FF keeps the value modulo 512. -/
theorem and_511_eq_mod (x : Nat) : x &&& 511 = x % 512 := by
  have h := Nat.and_pow_two_sub_one_eq_mod x 9
  norm_num at h
  exact h

/-- C4: for every level L in 1..4 the page-table index is bits
[12+9*(L-1) .. 20+9*(L-1)] of the virtual address, i.e. the value
`va / 2^(12+9*(L-1)) mod 512`; in particular index(1, 0x1000) = 1,
index(1, 0) = 0, and index(4, 0xFFFF800000000000) = 256, the root slot
of the canonical higher half. -/
theorem claim_C4_level_index_bits :
    (∀ level va : Nat, 1 ≤ level → level ≤ 4 →
      pmap_get_level_index level va = va / 2 ^ (12 + 9 * (level - 1)) % 512) ∧
    pmap_get_level_index 1 0x1000 = 1 ∧
    pmap_get_level_index 1 0 = 0 ∧
    pmap_get_level_index 4 0xFFFF800000000000 = 256 := by
  refine ⟨?_, by decide, by decide, by decide⟩
  intro level va h1 h4
  interval_cases level <;>
    simp [pmap_get_level_index, and_511_eq_mod, Nat.shiftRight_eq_div_pow]

/-- C4 witness: the general part of the claim evaluated at level 1,
va = 0x1000. -/
theorem claim_C4_witness :
    pmap_get_level_index 1 0x1000 = 0x1000 / 2 ^ (12 + 9 * (1 - 1)) % 512 :=
  claim_C4_level_index_bits.1 1 0x1000 (by decide) (by decide)

/-- C9: for every level in 1..4 and every virtual address, the index the
walker (`pmap_extract`) uses is strictly below 512, so all its table
accesses stay within the 512-entry bounds of a page table. -/
theorem claim_C9_index_in_bounds (level va : Nat) (h1 : 1 ≤ level) (h4 : level ≤ 4) :
    pmap_get_level_index level va < 512 := by
  interval_cases level <;>
    exact Nat.lt_succ_of_le (Nat.le_trans Nat.and_le_right (by norm_num))

/-- C9 witness: the bound at level 4, va = 0xFFFF800000000000. -/
theorem claim_C9_witness : pmap_get_level_index 4 0xFFFF800000000000 < 512 :=
  claim_C9_index_in_bounds 4 0xFFFF800000000000 (by decide) (by decide)

/-- The control-flags mask and the address mask are complementary bit
partitions of a 64-bit word, so splitting and re-joining is the
identity. -/
theorem cr3_split_join (x : Nat) (hx : x < 2 ^ 64) :
    (x &&& (MASK64 ^^^ PTE_ADDR_MASK)) ||| (x &&& PTE_ADDR_MASK) = x := by
  apply Nat.eq_of_testBit_eq
  intro i
  simp only [Nat.testBit_lor, Nat.testBit_land, Nat.testBit_xor]
  by_cases h : i < 64
  · have hm : MASK64.testBit i = true := by
      have h64 : MASK64 = 2 ^ 64 - 1 := by norm_num [MASK64]
      rw [h64, Nat.testBit_two_pow_sub_one]
      simpa using h
    rw [hm]
    cases x.testBit i <;> cases PTE_ADDR_MASK.testBit i <;> simp
  · have hxi : x.testBit i = false :=
      Nat.testBit_lt_two_pow
        (lt_of_lt_of_le hx (Nat.pow_le_pow_right (by norm_num) (le_of_not_lt h)))
    simp [hxi]

/-- C10: reading the active address space and immediately switching to
it reloads exactly the raw CR3 value that was read, because the
descriptor's control-flags field and root-address field are
complementary bit partitions of the register; the whole machine state
is unchanged. -/
theorem claim_C10_read_switch_identity (m : Machine) (h : m.cr3 < 2 ^ 64) :
    pmap_switch_vas (pmap_read_vas m) m = m := by
  have hc := cr3_split_join m.cr3 h
  simp [pmap_switch_vas, pmap_read_vas, hc]

/-- C10 witness: the identity at the concrete machine `M0`. -/
theorem claim_C10_witness : pmap_switch_vas (pmap_read_vas M0) M0 = M0 :=
  claim_C10_read_switch_identity M0 (by decide)

/-- A non-allocating `pmap_extract` either follows a present entry or
reports `NULL`; in both cases the machine is untouched. -/
theorem pmap_extract_false_cases (level va base : Nat) (m : Machine) :
    pmap_extract level va base false m =
      .ok (m.mem base (pmap_get_level_index level va) &&& PTE_ADDR_MASK) m ∨
    pmap_extract level va base false m = .nullPtr m := by
  unfold pmap_extract
  by_cases h : m.mem base (pmap_get_level_index level va) &&& PTE_P ≠ 0
  · left; simp [h]
  · right; simp [h]

/-- A non-allocating walk either returns some leaf table or status 1,
and never changes the machine. -/
theorem pmap_get_tbl_false_cases (vas : Vas) (va : Nat) (m : Machine) :
    (∃ tbl, pmap_get_tbl vas va false m = .ok tbl m) ∨
    pmap_get_tbl vas va false m = .err 1 m := by
  unfold pmap_get_tbl
  rcases pmap_extract_false_cases 4 va vas.top_level m with h4 | h4
  · simp only [h4]
    rcases pmap_extract_false_cases 3 va
      (m.mem vas.top_level (pmap_get_level_index 4 va) &&& PTE_ADDR_MASK) m with h3 | h3
    · simp only [h3]
      rcases pmap_extract_false_cases 2 va
        (m.mem (m.mem vas.top_level (pmap_get_level_index 4 va) &&& PTE_ADDR_MASK)
          (pmap_get_level_index 3 va) &&& PTE_ADDR_MASK) m with h2 | h2
      · simp only [h2]
        exact Or.inl ⟨_, rfl⟩
      · simp only [h2]
        exact Or.inr trivial
    · simp only [h3]
      exact Or.inr trivial
  · simp only [h4]
    exact Or.inr trivial

/-- C2 (amended): whenever the non-allocating walk fails — an
intermediate level or the leaf table itself is absent —
`pmap_set_cache` fails with status 1 (mapping-not-found) and returns
the machine exactly as it was: no frame is consumed and no table entry
is written. -/
theorem claim_C2_walk_failure_no_alloc (vas : Vas) (va ty : Nat) (m : Machine)
    (st : Int) (m' : Machine)
    (h : pmap_get_tbl vas va false m = .err st m') :
    st = 1 ∧ m' = m ∧ pmap_set_cache vas va ty m = some (1, m) := by
  rcases pmap_get_tbl_false_cases vas va m with ⟨tbl, hok⟩ | herr
  · rw [hok] at h; exact absurd h (by simp)
  · rw [herr] at h
    injection h with h1 h2
    refine ⟨h1.symm, h2.symm, ?_⟩
    simp [pmap_set_cache, herr]

/-- C2 witness: the amended theorem applied at `M0` (whose radix tree is
entirely empty) with an arbitrary policy value 5. -/
theorem claim_C2_witness :
    (1 : Int) = 1 ∧ M0 = M0 ∧ pmap_set_cache vas0 0 5 M0 = some (1, M0) :=
  claim_C2_walk_failure_no_alloc vas0 0 5 M0 1 M0 rfl

/-- C2 counterexample: the claim as stated — `set_cache_policy` fails
for every va with no leaf mapping — is false: on a machine whose
intermediate tables and leaf table are all present but whose leaf entry
for va = 0x400000 is 0 (so the non-allocating lookup reports
mapping-not-found), `pmap_set_cache` succeeds with status 0 instead of
failing. -/
theorem claim_C2_counterexample :
    leaf_lookup vas0 0x400000 (cacheM 0x400000 0) = none ∧
    (pmap_set_cache vas0 0x400000 VM_CACHE_UC (cacheM 0x400000 0)).map Prod.fst =
      some 0 := by
  constructor <;> rfl

/-- Reading back the entry just written. -/
theorem mem_write_read (m : Machine) (b i v : Nat) : (mem_write m b i v).mem b i = v := by
  simp [mem_write]

/-- Lemma: `pmap_flush` touches only the CPU registry and the event log, never
the page tables. -/
theorem pmap_flush_mem (va : Nat) (m : Machine) : (pmap_flush va m).mem = m.mem := by
  unfold pmap_flush tlb_shootdown
  by_cases h : cpu_count m > 1 <;> simp [h]

/-- Setting with `or`, clearing with `and`: applying the pair twice is
the same as once, provided the set bits survive the clear mask. -/
theorem lor_and_idem (e o a : Nat) (h : o &&& a = o) :
    (((e ||| o) &&& a) ||| o) &&& a = (e ||| o) &&& a := by
  apply Nat.eq_of_testBit_eq
  intro i
  have hb : (o.testBit i && a.testBit i) = o.testBit i := by
    rw [← Nat.testBit_land, h]
  simp only [Nat.testBit_lor, Nat.testBit_land]
  revert hb
  cases e.testBit i <;> cases o.testBit i <;> cases a.testBit i <;> decide

/-- Clearing with `and`, setting with `or`: applying the pair twice is
the same as once, provided the set bits survive the clear mask. -/
theorem and_lor_idem (e o a : Nat) (h : o &&& a = o) :
    (((e &&& a) ||| o) &&& a) ||| o = (e &&& a) ||| o := by
  apply Nat.eq_of_testBit_eq
  intro i
  have hb : (o.testBit i && a.testBit i) = o.testBit i := by
    rw [← Nat.testBit_land, h]
  simp only [Nat.testBit_lor, Nat.testBit_land]
  revert hb
  cases e.testBit i <;> cases o.testBit i <;> cases a.testBit i <;> decide

/-- Literal bit-arithmetic facts used to evaluate walks over the
concrete fixture frames (no simproc reduces `&&&`/`|||` literals here). -/
theorem lit_or7 : ((1 : Nat) ||| 2 ||| 4) = 7 := by decide

theorem lit_or2000 : ((0x2000 : Nat) ||| 7) = 0x2007 := by decide

theorem lit_or3000 : ((0x3000 : Nat) ||| 7) = 0x3007 := by decide

theorem lit_or4000 : ((0x4000 : Nat) ||| 7) = 0x4007 := by decide

theorem lit_andp0 : ((0 : Nat) &&& 1) = 0 := by decide

theorem lit_andp2007 : ((0x2007 : Nat) &&& 1) = 1 := by decide

theorem lit_andp3007 : ((0x3007 : Nat) &&& 1) = 1 := by decide

theorem lit_andp4007 : ((0x4007 : Nat) &&& 1) = 1 := by decide

theorem lit_anda2007 : ((0x2007 : Nat) &&& 0x000FFFFFFFFFF000) = 0x2000 := by decide

theorem lit_anda3007 : ((0x3007 : Nat) &&& 0x000FFFFFFFFFF000) = 0x3000 := by decide

theorem lit_anda4007 : ((0x4007 : Nat) &&& 0x000FFFFFFFFFF000) = 0x4000 := by decide

/-- C5: on a va whose non-allocating walk reaches the leaf table,
`pmap_set_cache` with UNCACHEABLE sets the cache-disable bit (PCD, bit
4) and clears the write-through bit (PWT, bit 3) of the leaf entry;
with WRITE_THROUGH it clears PCD and sets PWT; any other policy value
returns status 1 (invalid-cache-policy) with the machine — and hence
the leaf entry — exactly unchanged. -/
theorem claim_C5_cache_policy_bits (vas : Vas) (va : Nat) (m : Machine) (tbl : Nat)
    (h : pmap_get_tbl vas va false m = .ok tbl m) :
    (pmap_set_cache vas va VM_CACHE_UC m).map
        (fun r => (r.1, (r.2.mem tbl (pmap_get_level_index 1 va)).testBit 4,
          (r.2.mem tbl (pmap_get_level_index 1 va)).testBit 3)) =
      some (0, true, false) ∧
    (pmap_set_cache vas va VM_CACHE_WT m).map
        (fun r => (r.1, (r.2.mem tbl (pmap_get_level_index 1 va)).testBit 4,
          (r.2.mem tbl (pmap_get_level_index 1 va)).testBit 3)) =
      some (0, false, true) ∧
    (∀ ty, ty ≠ VM_CACHE_UC → ty ≠ VM_CACHE_WT →
      pmap_set_cache vas va ty m = some (1, m)) := by
  refine ⟨?_, ?_, ?_⟩
  · simp only [pmap_set_cache, h, VM_CACHE_UC, VM_CACHE_WT]
    norm_num
    rw [pmap_flush_mem, mem_write_read, mem_write_read]
    simp [PTE_PCD, MASK64, PTE_PWT, Nat.testBit_land, Nat.testBit_lor,
      show Nat.testBit 0xFFFFFFFFFFFFFFF7 4 = true from by decide,
      show Nat.testBit 0xFFFFFFFFFFFFFFF7 3 = false from by decide,
      show Nat.testBit 16 4 = true from by decide,
      show Nat.testBit 16 3 = false from by decide]
  · simp only [pmap_set_cache, h, VM_CACHE_UC, VM_CACHE_WT]
    norm_num
    rw [pmap_flush_mem, mem_write_read, mem_write_read]
    simp [PTE_PCD, MASK64, PTE_PWT, Nat.testBit_land, Nat.testBit_lor,
      show Nat.testBit 0xFFFFFFFFFFFFFFEF 4 = false from by decide,
      show Nat.testBit 0xFFFFFFFFFFFFFFEF 3 = true from by decide,
      show Nat.testBit 8 4 = false from by decide,
      show Nat.testBit 8 3 = true from by decide]
  · intro ty h1 h2
    simp only [pmap_set_cache, h, if_neg h1, if_neg h2]

/-- Walking the fully-present fixture tree without allocating reaches
the leaf table at 0x4000 and leaves the machine unchanged. -/
theorem get_tbl_cacheM (va e : Nat) :
    pmap_get_tbl vas0 va false (cacheM va e) = .ok 0x4000 (cacheM va e) := by
  simp [pmap_get_tbl, pmap_extract, cacheM, vas0, PTE_P, PTE_ADDR_MASK,
    lit_andp2007, lit_andp3007, lit_andp4007, lit_anda2007, lit_anda3007, lit_anda4007]

/-- C5 witness: the theorem applied at the concrete fixture machine with
leaf entry 0. -/
theorem claim_C5_witness :
    (pmap_set_cache vas0 7 VM_CACHE_UC (cacheM 7 0)).map
        (fun r => (r.1, (r.2.mem 0x4000 (pmap_get_level_index 1 7)).testBit 4,
          (r.2.mem 0x4000 (pmap_get_level_index 1 7)).testBit 3)) =
      some (0, true, false) ∧
    (pmap_set_cache vas0 7 VM_CACHE_WT (cacheM 7 0)).map
        (fun r => (r.1, (r.2.mem 0x4000 (pmap_get_level_index 1 7)).testBit 4,
          (r.2.mem 0x4000 (pmap_get_level_index 1 7)).testBit 3)) =
      some (0, false, true) ∧
    (∀ ty, ty ≠ VM_CACHE_UC → ty ≠ VM_CACHE_WT →
      pmap_set_cache vas0 7 ty (cacheM 7 0) = some (1, cacheM 7 0)) :=
  claim_C5_cache_policy_bits vas0 7 (cacheM 7 0) 0x4000 (get_tbl_cacheM 7 0)

/-- C8: `pmap_set_cache` is idempotent on the fixture machine whose
radix tree for `va` is fully present with arbitrary leaf entry `e`:
applying the same supported policy (UNCACHEABLE or WRITE_THROUGH) twice
leaves the leaf entry identical to applying it once. -/
theorem claim_C8_set_cache_idempotent (va e ty : Nat)
    (h : ty = VM_CACHE_UC ∨ ty = VM_CACHE_WT) :
    match pmap_set_cache vas0 va ty (cacheM va e) with
    | some (_, m1) =>
      (match pmap_set_cache vas0 va ty m1 with
       | some (_, m2) =>
         m2.mem 0x4000 (pmap_get_level_index 1 va) =
           m1.mem 0x4000 (pmap_get_level_index 1 va)
       | none => False)
    | none => False := by
  rcases h with h | h <;> subst h <;>
    simp [pmap_set_cache, pmap_get_tbl, pmap_extract, cacheM, vas0, mem_write, zero_frame,
      pmap_flush, tlb_shootdown, cpu_count, VM_CACHE_UC, VM_CACHE_WT,
      PTE_P, PTE_ADDR_MASK, PTE_PCD, PTE_PWT, MASK64,
      lit_andp2007, lit_andp3007, lit_andp4007, lit_anda2007, lit_anda3007, lit_anda4007]
  · exact lor_and_idem e 0x10 (0xFFFFFFFFFFFFFFFF ^^^ 0x8) (by decide)
  · exact and_lor_idem e 0x8 (0xFFFFFFFFFFFFFFFF ^^^ 0x10) (by decide)

/-- C8 witness: the idempotence theorem at va = 0, e = 0 with the
UNCACHEABLE policy. -/
theorem claim_C8_witness :
    (match pmap_set_cache vas0 0 VM_CACHE_UC (cacheM 0 0) with
    | some (_, m1) =>
      (match pmap_set_cache vas0 0 VM_CACHE_UC m1 with
       | some (_, m2) =>
         m2.mem 0x4000 (pmap_get_level_index 1 0) =
           m1.mem 0x4000 (pmap_get_level_index 1 0)
       | none => False)
    | none => False) :=
  claim_C8_set_cache_idempotent 0 0 VM_CACHE_UC (Or.inl rfl)

/-- C6: `pmap_create_vas` pops exactly one fresh frame for the new root,
returns the descriptor naming it (with zero control flags), zeroes
every lower-half root entry (indices 0..255), copies every upper-half
root entry (indices 256..511) from the current space's root (decoded
from CR3), and on frame exhaustion returns -1 with no descriptor and
the machine unchanged. -/
theorem claim_C6_create_vas (m : Machine) :
    (∀ f rest, m.free = f :: rest → f ≠ 0 →
      (pmap_create_vas m).1 = 0 ∧
      (pmap_create_vas m).2.1 =
        some { cr3_flags := 0, top_level := f, use_l5_paging := false, lock := 0 } ∧
      (pmap_create_vas m).2.2.free = rest ∧
      (∀ i, i < 256 → (pmap_create_vas m).2.2.mem f i = 0) ∧
      (∀ i, 256 ≤ i → i < 512 →
        (pmap_create_vas m).2.2.mem f i = m.mem (m.cr3 &&& PTE_ADDR_MASK) i)) ∧
    (m.free = [] → pmap_create_vas m = (-1, none, m)) := by
  constructor
  · intro f rest hf hf0
    simp only [pmap_create_vas, vm_alloc_pageframe, pmap_read_vas, hf, if_neg hf0]
    refine ⟨trivial, trivial, trivial, ?_, ?_⟩
    · intro i hi
      simp [hi, Nat.lt_trans hi (by norm_num : (256 : Nat) < 512)]
    · intro i h256 h512
      simp [h512, Nat.not_lt_of_le h256]
  · intro hf
    simp [pmap_create_vas, vm_alloc_pageframe, hf]

/-- C6 witness: the theorem applied at the machine `M0`, whose free list
starts with frame 0x2000. -/
theorem claim_C6_witness :
    (pmap_create_vas M0).1 = 0 ∧
    (pmap_create_vas M0).2.1 =
      some { cr3_flags := 0, top_level := 0x2000, use_l5_paging := false, lock := 0 } ∧
    (pmap_create_vas M0).2.2.free = [0x3000, 0x4000] ∧
    (∀ i, i < 256 → (pmap_create_vas M0).2.2.mem 0x2000 i = 0) ∧
    (∀ i, 256 ≤ i → i < 512 →
      (pmap_create_vas M0).2.2.mem 0x2000 i = M0.mem (M0.cr3 &&& PTE_ADDR_MASK) i) :=
  (claim_C6_create_vas M0).1 0x2000 [0x3000, 0x4000] rfl (by decide)

/-- C3: mapping any va (to any pa with any protection) on the
empty-tree machine `M0`, then unmapping it, then performing a
non-allocating lookup of va reports mapping-not-found (the lookup
returns `none`). -/
theorem claim_C3_map_unmap_lookup_not_found (va pa : Nat) (prot : VmProt) :
    ((pmap_map vas0 va pa prot M0).bind
      (fun r => pmap_unmap vas0 va r.2)).map
      (fun r => leaf_lookup vas0 va r.2) = some none := by
  simp [pmap_map, pmap_unmap, pmap_modify_tbl, pmap_get_tbl, pmap_extract, leaf_lookup,
    vm_alloc_pageframe, mem_write, zero_frame, pmap_flush, tlb_shootdown, cpu_count,
    M0, vas0, cpu0, PTE_P, PTE_RW, PTE_US, PTE_ADDR_MASK,
    lit_or7, lit_or2000, lit_or3000, lit_or4000,
    lit_andp0, lit_andp2007, lit_andp3007, lit_andp4007,
    lit_anda2007, lit_anda3007, lit_anda4007]

/-- C1 (code evaluated at the failing input): `pmap_prot_to_pte`
computes flags with the no-execute bit (63) SET for a writable-only
request, but `pmap_map` stores those flags in a `uint32_t`, so the leaf
entry actually installed for map(va=0x400000, pa=0x100000, {writable})
on the empty machine `M0` is 0x100003: present (bit 0) and writable
(bit 1) with the user bit (2) clear as the claim states, but with the
no-execute bit (63) CLEAR, contradicting the claim.  Mapping the same
address with {executable} yields leaf entry 0x100001 (no-execute clear,
as claimed) and a subsequent unmap leaves the leaf entry 0 (as
claimed). -/
theorem claim_C1_nx_bit_dropped :
    (pmap_prot_to_pte { write := true, exec := false, user := false }).testBit 63 = true ∧
    (pmap_map vas0 0x400000 0x100000 { write := true, exec := false, user := false } M0).map
        (fun r => (r.1, r.2.mem 0x4000 (pmap_get_level_index 1 0x400000))) =
      some (0, 0x100003) ∧
    (pmap_map vas0 0x400000 0x100000 { write := true, exec := false, user := false } M0).map
        (fun r => ((r.2.mem 0x4000 (pmap_get_level_index 1 0x400000)).testBit 0,
          (r.2.mem 0x4000 (pmap_get_level_index 1 0x400000)).testBit 1,
          (r.2.mem 0x4000 (pmap_get_level_index 1 0x400000)).testBit 2,
          (r.2.mem 0x4000 (pmap_get_level_index 1 0x400000)).testBit 63)) =
      some (true, true, false, false) ∧
    ((pmap_map vas0 0x400000 0x100000 { write := true, exec := false, user := false } M0).bind
        (fun r => pmap_map vas0 0x400000 0x100000
          { write := false, exec := true, user := false } r.2)).map
        (fun r => r.2.mem 0x4000 (pmap_get_level_index 1 0x400000)) = some 0x100001 ∧
    ((pmap_map vas0 0x400000 0x100000 { write := true, exec := false, user := false } M0).bind
        (fun r => pmap_unmap vas0 0x400000 r.2)).map
        (fun r => r.2.mem 0x4000 (pmap_get_level_index 1 0x400000)) = some 0 := by
  refine ⟨by decide, rfl, by decide, rfl, rfl⟩

/-- C7: on the two-CPU machine `M2c`, any `pmap_map` call made by CPU 0
returns status 0 having emitted exactly one IPI (tagged with the
shootdown vector, addressed to all other cores) followed by the local
TLB flush of va, and having first stored va into CPU 1's pending-flush
slot (CPU 0's own slot stays empty); when CPU 1's shootdown handler
then runs, it flushes its local TLB for the address found in its slot,
increments its invocation counter to exactly 1, resets the slot to the
empty sentinel 0 and signals EOI; the subsequent `pmap_unmap` and
`pmap_set_cache` calls likewise each emit exactly one IPI and the local
flush before returning. -/
theorem claim_C7_shootdown_protocol (va pa : Nat) (prot : VmProt) :
    match pmap_map vas0 va pa prot M2c with
    | some (s, m1) =>
      s = 0 ∧
      m1.events = [Event.ipi 0 IPI_SHORTHAND_OTHERS SYSVEC_TLB, Event.tlbFlush 0 va] ∧
      (m1.cpus.getD 1 cpu_default).tlb_flush_ptr = va ∧
      (m1.cpus.getD 0 cpu_default).tlb_flush_ptr = 0 ∧
      (tlb_shootdown_isr 1 m1).events =
        m1.events ++ [Event.tlbFlush 1 va, Event.eoi 1] ∧
      ((tlb_shootdown_isr 1 m1).cpus.getD 1 cpu_default).tlb_shootdown =
        some { count := 1, affinity := 1 } ∧
      ((tlb_shootdown_isr 1 m1).cpus.getD 1 cpu_default).tlb_flush_ptr = 0 ∧
      (match pmap_unmap vas0 va m1 with
       | some (s2, m3) =>
         s2 = 0 ∧ m3.events =
           m1.events ++ [Event.ipi 0 IPI_SHORTHAND_OTHERS SYSVEC_TLB, Event.tlbFlush 0 va]
       | none => False) ∧
      (match pmap_set_cache vas0 va VM_CACHE_UC m1 with
       | some (s3, m4) =>
         s3 = 0 ∧ m4.events =
           m1.events ++ [Event.ipi 0 IPI_SHORTHAND_OTHERS SYSVEC_TLB, Event.tlbFlush 0 va]
       | none => False)
    | none => False := by
  simp [pmap_map, pmap_unmap, pmap_modify_tbl, pmap_set_cache, pmap_get_tbl, pmap_extract,
    vm_alloc_pageframe, mem_write, zero_frame, pmap_flush, tlb_shootdown, tlb_shootdown_isr,
    cpu_count, cpu_default, M2c, vas0, cpu0, VM_CACHE_UC, VM_CACHE_WT,
    PTE_P, PTE_RW, PTE_US, PTE_ADDR_MASK, PTE_PCD, PTE_PWT, MASK64,
    List.getD,
    lit_or7, lit_or2000, lit_or3000, lit_or4000,
    lit_andp0, lit_andp2007, lit_andp3007, lit_andp4007,
    lit_anda2007, lit_anda3007, lit_anda4007]

end Hyra